import Mathlib

/-!
Verification of the PitchDeck-Extractor normalization / scoring / merging
pipeline, shallowly embedded from the Python sources:

  analyze_scoring.py   (SCORING_RUBRIC, apply_weights, call_structured_pitch_scorer)
  analyse_insight.py / analyze_insight.py  (call_chatgpt_insight response parsing)
  analyze.py           (parse_deck_with_chatgpt merge step, identify_key_slide_pages)
  streamlit_app.py     (tab1 processing loop, scoring block, key slide preview,
                        identify_key_slide_pages, tab3 insight block)

JSON values are modelled with rational numbers in place of Python floats
(exact decimal arithmetic; the rubric weight 0.15 is modelled as 15/100).
Fallible Python code is modelled with Except; the PyErr type names the
Python exception class raised.  Dictionaries are association lists with
unique keys (the JSON parser and dictSet keep keys unique, matching
Python dict semantics where a later binding for the same key replaces the
earlier value in place).
-/

/-- Kernel-reducible rational addition (Lean core Rat.add does not reduce
in the kernel; this mkRat form does, and is proved equal to + below). -/
def qadd (a b : ℚ) : ℚ :=
  mkRat (a.num * (b.den : ℤ) + b.num * (a.den : ℤ)) (a.den * b.den)

/-- Kernel-reducible rational multiplication, proved equal to * below. -/
def qmul (a b : ℚ) : ℚ :=
  mkRat (a.num * b.num) (a.den * b.den)

/-- Kernel-reducible rational negation, proved equal to Neg.neg below. -/
def qneg (a : ℚ) : ℚ :=
  mkRat (-a.num) a.den

/-- A parsed JSON value, as produced by Python json.loads: null, bool,
number (modelled as an exact rational), string, array, object. -/
inductive JsonValue where
  | null : JsonValue
  | bool (b : Bool) : JsonValue
  | num (q : ℚ) : JsonValue
  | str (s : String) : JsonValue
  | arr (xs : List JsonValue) : JsonValue
  | obj (kvs : List (String × JsonValue)) : JsonValue

/-- A Python dict whose keys are strings, as produced by json.loads. -/
abbrev JsonObj := List (String × JsonValue)

/-- Python d.get(k): the value bound to the key, if present (first match;
all objects in the pipeline have unique keys). -/
def objGet? (kvs : JsonObj) (k : String) : Option JsonValue :=
  (kvs.find? (fun p => p.1 == k)).map (fun p => p.2)

/-- Python d.get(k, default). -/
def objGetD (kvs : JsonObj) (k : String) (d : JsonValue) : JsonValue :=
  (objGet? kvs k).getD d

/-- Python d[k] = v: replace the value in place if the key exists,
otherwise append the new binding. -/
def dictSet (kvs : JsonObj) (k : String) (v : JsonValue) : JsonObj :=
  if kvs.any (fun p => p.1 == k) then
    kvs.map (fun p => if p.1 == k then (k, v) else p)
  else kvs ++ [(k, v)]

/-- Python truthiness of a JSON value: None, False, 0, empty string,
empty list and empty dict are falsy; everything else is truthy. -/
def truthy : JsonValue → Bool
  | JsonValue.null => false
  | JsonValue.bool b => b
  | JsonValue.num q => if q = 0 then false else true
  | JsonValue.str s => if s = "" then false else true
  | JsonValue.arr xs => !xs.isEmpty
  | JsonValue.obj kvs => !kvs.isEmpty

/-- Python `a or b`: a if a is truthy, else b. -/
def pyOr (a b : JsonValue) : JsonValue :=
  if truthy a then a else b

/-- The opening-brace character (Python "\x7b"). -/
def lbrace : Char := Char.ofNat 123

/-- The closing-brace character (Python "\x7d"). -/
def rbrace : Char := Char.ofNat 125

def pyFindAux (t : Char) : List Char → Nat → Int
  | [], _ => -1
  | c :: cs, i => if c == t then (i : Int) else pyFindAux t cs (i + 1)

/-- Python s.find(c): index of the first occurrence of c in s, or -1. -/
def pyFind (s : String) (t : Char) : Int :=
  pyFindAux t s.toList 0

def pyRfindAux (t : Char) : List Char → Nat → Int → Int
  | [], _, acc => acc
  | c :: cs, i, acc => pyRfindAux t cs (i + 1) (if c == t then (i : Int) else acc)

/-- Python s.rfind(c): index of the last occurrence of c in s, or -1. -/
def pyRfind (s : String) (t : Char) : Int :=
  pyRfindAux t s.toList 0 (-1)

/-- Python s[a:b] for non-negative bounds: the characters at indices
a, ..., b-1 (empty when b is at most a). -/
def pySliceNN (s : String) (a b : Nat) : String :=
  String.mk ((s.toList.drop a).take (b - a))

/-- Whitespace skipping inside the JSON parser. -/
def skipWs : List Char → List Char
  | [] => []
  | c :: cs =>
      if c == ' ' || c == '\t' || c == '\n' || c == '\r' then skipWs cs
      else c :: cs

/-- String-body scanner for the JSON parser: consumes characters up to the
closing quote, handling the common escapes. -/
def parseStringChars : List Char → List Char → Option (String × List Char)
  | [], _ => none
  | c :: cs, acc =>
      if c == '"' then some (String.mk acc.reverse, cs)
      else if c == '\\' then
        match cs with
        | [] => none
        | e :: cs2 =>
            if e == '"' then parseStringChars cs2 ('"' :: acc)
            else if e == '\\' then parseStringChars cs2 ('\\' :: acc)
            else if e == '/' then parseStringChars cs2 ('/' :: acc)
            else if e == 'n' then parseStringChars cs2 ('\n' :: acc)
            else if e == 't' then parseStringChars cs2 ('\t' :: acc)
            else if e == 'r' then parseStringChars cs2 ('\r' :: acc)
            else none
      else parseStringChars cs (c :: acc)

def takeDigits : List Char → (List Char × List Char)
  | [] => ([], [])
  | c :: cs =>
      if c.isDigit then
        let (ds, rest) := takeDigits cs
        (c :: ds, rest)
      else ([], c :: cs)

def digitsVal (ds : List Char) : Nat :=
  ds.foldl (fun acc c => acc * 10 + (c.toNat - 48)) 0

/-- Number scanner for the JSON parser: an optional minus sign, an integer
part, and an optional fractional part (exponents are not modelled). -/
def parseNumber (cs : List Char) : Option (JsonValue × List Char) :=
  let (neg, cs1) :=
    match cs with
    | c :: rest => if c == '-' then (true, rest) else (false, cs)
    | [] => (false, cs)
  let (ds, cs2) := takeDigits cs1
  if ds.isEmpty then none
  else
    let intPart : ℚ := mkRat (digitsVal ds : ℤ) 1
    match cs2 with
    | c :: cs3 =>
        if c == '.' then
          let (fs, cs4) := takeDigits cs3
          if fs.isEmpty then none
          else
            let mag : ℚ := qadd intPart (mkRat (digitsVal fs : ℤ) (10 ^ fs.length))
            some (JsonValue.num (if neg then qneg mag else mag), cs4)
        else some (JsonValue.num (if neg then qneg intPart else intPart), cs2)
    | [] => some (JsonValue.num (if neg then qneg intPart else intPart), cs2)

mutual

/-- Recursive-descent JSON value parser (fuel-bounded; the fuel supplied by
jsonParse is generous enough for any input that fits in the string). -/
def parseValue : Nat → List Char → Option (JsonValue × List Char)
  | 0, _ => none
  | fuel + 1, cs =>
      match skipWs cs with
      | [] => none
      | c :: rest =>
          if c == lbrace then
            match skipWs rest with
            | c2 :: rest2 =>
                if c2 == rbrace then some (JsonValue.obj [], rest2)
                else parseMembers fuel (c2 :: rest2) []
            | [] => none
          else if c == '[' then
            match skipWs rest with
            | c2 :: rest2 =>
                if c2 == ']' then some (JsonValue.arr [], rest2)
                else parseElems fuel (c2 :: rest2) []
            | [] => none
          else if c == '"' then
            match parseStringChars rest [] with
            | some (s, rest2) => some (JsonValue.str s, rest2)
            | none => none
          else if c == 'n' then
            match rest with
            | 'u' :: 'l' :: 'l' :: rest2 => some (JsonValue.null, rest2)
            | _ => none
          else if c == 't' then
            match rest with
            | 'r' :: 'u' :: 'e' :: rest2 => some (JsonValue.bool true, rest2)
            | _ => none
          else if c == 'f' then
            match rest with
            | 'a' :: 'l' :: 's' :: 'e' :: rest2 => some (JsonValue.bool false, rest2)
            | _ => none
          else parseNumber (c :: rest)

/-- Parses the members of a JSON object after the opening brace (later
duplicate keys replace earlier ones, as in Python dicts). -/
def parseMembers : Nat → List Char → JsonObj → Option (JsonValue × List Char)
  | 0, _, _ => none
  | fuel + 1, cs, acc =>
      match skipWs cs with
      | c :: rest =>
          if c == '"' then
            match parseStringChars rest [] with
            | some (k, r1) =>
                match skipWs r1 with
                | c2 :: r2 =>
                    if c2 == ':' then
                      match parseValue fuel r2 with
                      | some (v, r3) =>
                          let acc2 := dictSet acc k v
                          match skipWs r3 with
                          | c3 :: r4 =>
                              if c3 == ',' then parseMembers fuel r4 acc2
                              else if c3 == rbrace then some (JsonValue.obj acc2, r4)
                              else none
                          | [] => none
                      | none => none
                    else none
                | [] => none
            | none => none
          else none
      | [] => none

/-- Parses the elements of a JSON array after the opening bracket. -/
def parseElems : Nat → List Char → List JsonValue → Option (JsonValue × List Char)
  | 0, _, _ => none
  | fuel + 1, cs, acc =>
      match parseValue fuel cs with
      | some (v, r1) =>
          match skipWs r1 with
          | c :: r2 =>
              if c == ',' then parseElems fuel r2 (acc ++ [v])
              else if c == ']' then some (JsonValue.arr (acc ++ [v]), r2)
              else none
          | [] => none
      | none => none

end

/-- Model of Python json.loads on a string: parse one JSON value and
require only whitespace to remain; returns none where json.loads raises
json.JSONDecodeError. -/
def jsonParse (s : String) : Option JsonValue :=
  match parseValue (8 * (s.length + 1)) s.toList with
  | some (v, rest) => if (skipWs rest).isEmpty then some v else none
  | none => none

def isPyWs (c : Char) : Bool :=
  c == ' ' || c == '\t' || c == '\n' || c == '\r'

def dropWhileWs : List Char → List Char
  | [] => []
  | c :: cs => if isPyWs c then dropWhileWs cs else c :: cs

/-- Python s.strip(): remove leading and trailing whitespace. -/
def pyStrip (s : String) : String :=
  String.mk (dropWhileWs ((dropWhileWs s.toList.reverse).reverse))

/-- The Python exceptions that can escape the modelled fragments.
parseValueError is the explicit
  ValueError("Could not parse JSON from ... response:\n" + content)
raised by call_structured_pitch_scorer / call_chatgpt_insight and carries
the (stripped) response text; parseDecodeError is json.JSONDecodeError,
which carries only the document string that json.loads was parsing. -/
inductive PyErr where
  | parseValueError (raw : String) : PyErr
  | parseDecodeError (doc : String) : PyErr
  | rangeError (msg : String) : PyErr
  | typeError : PyErr
  | keyError : PyErr
  | attributeError : PyErr
deriving DecidableEq

/-- Response normalizer shared verbatim by call_structured_pitch_scorer
(analyze_scoring.py lines 69-80) and call_chatgpt_insight
(analyse_insight.py lines 66-75, analyze_insight.py lines 75-84):
strip the raw model text, try json.loads; on JSONDecodeError take
start = content.find of the first opening brace and
end = content.rfind of the last closing brace, plus 1, and if
start is not -1 and end is not -1 parse content from start to end,
else raise ValueError carrying the content.  Note end = rfind + 1 can
never be -1, so the else branch is reachable only when no opening brace
exists. -/
def braceWindow (content : String) : String :=
  pySliceNN content (pyFind content lbrace).toNat (pyRfind content rbrace + 1).toNat

/-- The try/except block of the normalizer on the already-stripped
content: json.loads, then the braceWindow salvage guarded by
start != -1 and end != -1, else the ValueError carrying the content. -/
def normalizeStripped (content : String) : Except PyErr JsonValue :=
  match jsonParse content with
  | some v => Except.ok v
  | none =>
      if pyFind content lbrace != -1 && (pyRfind content rbrace + 1) != -1 then
        match jsonParse (braceWindow content) with
        | some v => Except.ok v
        | none => Except.error (PyErr.parseDecodeError (braceWindow content))
      else Except.error (PyErr.parseValueError content)

def normalizeResponse (rawContent : String) : Except PyErr JsonValue :=
  normalizeStripped (pyStrip rawContent)

/-- The all-null fallback dict of identify_key_slide_pages. -/
def nullKeyPages : JsonValue :=
  JsonValue.obj [("TeamPage", JsonValue.null), ("MarketPage", JsonValue.null),
                 ("TractionPage", JsonValue.null)]

/-- Response handling of identify_key_slide_pages (streamlit_app.py lines
205-219, analyze.py lines 467-479): same salvage attempt as
normalizeResponse, but every parse failure falls through to the all-null
dict instead of raising. -/
def keySlideStripped (content : String) : JsonValue :=
  match jsonParse content with
  | some v => v
  | none =>
      if pyFind content lbrace != -1 && (pyRfind content rbrace + 1) != -1 then
        match jsonParse (braceWindow content) with
        | some v => v
        | none => nullKeyPages
      else nullKeyPages

def keySlideNormalize (rawContent : String) : JsonValue :=
  keySlideStripped (pyStrip rawContent)

/-- SCORING_RUBRIC from analyze_scoring.py lines 7-15: section names with
fractional weights (0.15 is modelled exactly as 15/100); the aliases are
informational only and not used by apply_weights, so they are omitted. -/
def SCORING_RUBRIC : List (String × ℚ) :=
  [("Team", mkRat 15 100),
   ("Problem & Opportunity", mkRat 15 100),
   ("Solution & Product", mkRat 20 100),
   ("Market Size & Competitive Landscape", mkRat 15 100),
   ("Business Model & Financials", mkRat 15 100),
   ("Traction", mkRat 15 100),
   ("Ask & Use of Proceeds", mkRat 5 100)]

/-- weight_map.get(name, 0) where weight_map is the dict comprehension
over SCORING_RUBRIC in apply_weights (names are unique, so first match
equals dict lookup). -/
def sectionWeight (n : String) : ℚ :=
  match SCORING_RUBRIC.find? (fun p => p.1 == n) with
  | some p => p.2
  | none => 0

/-- Truncation of a rational toward minus infinity (mathematical floor),
kernel-reducible. -/
def ratFloor (q : ℚ) : ℤ :=
  Int.fdiv q.num (q.den : ℤ)

/-- Python round() on an exact rational: round half to even. -/
def pyRound (q : ℚ) : ℤ :=
  let f : ℤ := ratFloor q
  let r : ℚ := qadd q (qneg (mkRat f 1))
  if r < mkRat 1 2 then f
  else if mkRat 1 2 < r then f + 1
  else if f % 2 = 0 then f else f + 1

/-- One term of the generator sum in apply_weights (analyze_scoring.py
line 23): sec score times weight_map.get of the sec name (default 0)
times 10.  A missing "score" or "name" key raises KeyError; a
non-numeric score raises TypeError when multiplied by the float weight;
an unhashable (list/dict) name raises TypeError inside dict.get.
Python bools are ints, so a bool score is 1 or 0, and a hashable
non-string name simply misses the lookup and gets weight 0. -/
def sectionTerm (v : JsonValue) : Except PyErr ℚ :=
  match v with
  | JsonValue.obj kvs =>
      match objGet? kvs "score" with
      | none => Except.error PyErr.keyError
      | some sv =>
          match objGet? kvs "name" with
          | none => Except.error PyErr.keyError
          | some nv =>
              match nv with
              | JsonValue.arr _ => Except.error PyErr.typeError
              | JsonValue.obj _ => Except.error PyErr.typeError
              | _ =>
                  let w : ℚ :=
                    match nv with
                    | JsonValue.str n => sectionWeight n
                    | _ => 0
                  match sv with
                  | JsonValue.num q => Except.ok (qmul (qmul q w) (mkRat 10 1))
                  | JsonValue.bool b =>
                      Except.ok (qmul (qmul (if b then 1 else 0) w) (mkRat 10 1))
                  | _ => Except.error PyErr.typeError
  | _ => Except.error PyErr.attributeError

/-- The sum in apply_weights over the section list (left-to-right, first
failing term raises). -/
def applyWeightsSum : List JsonValue → Except PyErr ℚ
  | [] => Except.ok 0
  | v :: rest =>
      match sectionTerm v with
      | Except.error e => Except.error e
      | Except.ok t =>
          match applyWeightsSum rest with
          | Except.error e => Except.error e
          | Except.ok s => Except.ok (qadd t s)

/-- apply_weights (analyze_scoring.py lines 17-24): round the weighted
sum of section scores. -/
def applyWeights (sections : List JsonValue) : Except PyErr ℤ :=
  match applyWeightsSum sections with
  | Except.error e => Except.error e
  | Except.ok s => Except.ok (pyRound s)

/-- The per-section validation in call_structured_pitch_scorer
(analyze_scoring.py lines 83-87): score = section.get("score", 0); raise
ValueError unless isinstance(score, (int, float)) and 0 <= score <= 10.
Python bools pass the isinstance check (bool is a subclass of int) and
lie in range.  Iterating over a non-dict section raises when .get is
looked up. -/
def sectionScoreOk (v : JsonValue) : Except PyErr Unit :=
  match v with
  | JsonValue.obj kvs =>
      match objGetD kvs "score" (JsonValue.num 0) with
      | JsonValue.num q =>
          if 0 ≤ q ∧ q ≤ 10 then Except.ok ()
          else Except.error (PyErr.rangeError "Invalid score")
      | JsonValue.bool _ => Except.ok ()
      | _ => Except.error (PyErr.rangeError "Invalid score")
  | _ => Except.error PyErr.attributeError

def validateSections : List JsonValue → Except PyErr Unit
  | [] => Except.ok ()
  | v :: rest =>
      match sectionScoreOk v with
      | Except.error e => Except.error e
      | Except.ok _ => validateSections rest

/-- The body of call_structured_pitch_scorer after the response is parsed
(analyze_scoring.py lines 82-99): sections = result.get("sections", []),
validate every section score, recompute the weighted total with
apply_weights, check it lies in [0, 100], and return the dict with keys
"sections" and "total_score" (any total_score present in the model JSON
is discarded).  A non-list sections value raises when iterated. -/
def validateAndScore (result : JsonObj) : Except PyErr JsonObj :=
  match objGetD result "sections" (JsonValue.arr []) with
  | JsonValue.arr secs =>
      match validateSections secs with
      | Except.error e => Except.error e
      | Except.ok _ =>
          match applyWeights secs with
          | Except.error e => Except.error e
          | Except.ok ws =>
              if 0 ≤ ws ∧ ws ≤ 100 then
                Except.ok [("sections", JsonValue.arr secs),
                           ("total_score", JsonValue.num (mkRat ws 1))]
              else Except.error (PyErr.rangeError "Invalid total_score")
  | _ => Except.error PyErr.typeError

/-- call_structured_pitch_scorer (analyze_scoring.py lines 61-99) from the
raw model response onward: normalize the response text, then validate and
rescore.  result.get on a non-dict JSON value raises AttributeError. -/
def callStructuredPitchScorer (content : String) : Except PyErr JsonObj :=
  match normalizeResponse content with
  | Except.error e => Except.error e
  | Except.ok (JsonValue.obj kvs) => validateAndScore kvs
  | Except.ok _ => Except.error PyErr.attributeError

/-- The two-spelling field lookup of parse_deck_with_chatgpt (analyze.py
lines 175-183): result.get(compact) or result.get(spaced) or None. -/
def resolveField (result : JsonObj) (compact spaced : String) : JsonValue :=
  pyOr (objGetD result compact JsonValue.null)
    (pyOr (objGetD result spaced JsonValue.null) JsonValue.null)

/-- Modelled from the amended claim wording for C4: prefer the compact
key's value when that value is truthy, else the spaced key's truthy
value, else null.  Used only to compare against resolveField. -/
def resolveFieldSpec (result : JsonObj) (compact spaced : String) : JsonValue :=
  if truthy (objGetD result compact JsonValue.null) then
    objGetD result compact JsonValue.null
  else if truthy (objGetD result spaced JsonValue.null) then
    objGetD result spaced JsonValue.null
  else JsonValue.null

/-- The normalized record built by parse_deck_with_chatgpt (analyze.py
lines 161-195).  The Python code builds a dict with these fixed keys; a
structure with one field per key is the same data. -/
structure MergedRecord where
  startupName : JsonValue
  foundingYear : JsonValue
  founders : JsonValue
  industry : JsonValue
  niche : JsonValue
  usp : JsonValue
  fundingStage : JsonValue
  currentRevenue : JsonValue
  amountRaised : JsonValue
  marketTAM : JsonValue
  marketSAM : JsonValue
  marketSOM : JsonValue
  rawJson : JsonObj

/-- The merge step of parse_deck_with_chatgpt (analyze.py lines 161-195):
reconcile both key spellings with or-chains, default Founders to [],
and normalize the Market sub-object from m = result.get("Market") or
followed by m.get on TAM, SAM, SOM.  When the Market value is truthy but
not a dict, Python raises AttributeError at m.get. -/
def mergeNormalize (result : JsonObj) : Except PyErr MergedRecord :=
  let m := pyOr (objGetD result "Market" JsonValue.null) (JsonValue.obj [])
  match m with
  | JsonValue.obj mk =>
      Except.ok
        { startupName := resolveField result "StartupName" "Startup Name"
          foundingYear := resolveField result "FoundingYear" "Founding Year"
          founders := pyOr (objGetD result "Founders" JsonValue.null) (JsonValue.arr [])
          industry := pyOr (objGetD result "Industry" JsonValue.null) JsonValue.null
          niche := pyOr (objGetD result "Niche" JsonValue.null) JsonValue.null
          usp := pyOr (objGetD result "USP" JsonValue.null) JsonValue.null
          fundingStage := resolveField result "FundingStage" "Funding Stage"
          currentRevenue := resolveField result "CurrentRevenue" "Current Revenue"
          amountRaised := resolveField result "AmountRaised" "Amount Raised"
          marketTAM := pyOr (objGetD mk "TAM" JsonValue.null) JsonValue.null
          marketSAM := pyOr (objGetD mk "SAM" JsonValue.null) JsonValue.null
          marketSOM := pyOr (objGetD mk "SOM" JsonValue.null) JsonValue.null
          rawJson := result }
  | _ => Except.error PyErr.attributeError

/-- The fixed string assigned to Summary Insight when the scoring block
fails (streamlit_app.py line 294). -/
def couldNotGenerateStructured : String := "Could not generate structured insight."

/-- The scoring sub-block of the tab1 processing loop (streamlit_app.py
lines 281-295): on success assign Section Scores and Pitch Score from the
scorer result and overwrite Summary Insight only when scoring_result.get
of "summary" (default "") strips to a non-empty string; any exception in
the block leaves the record with Section Scores = [], Pitch Score = None
and the fixed placeholder Summary Insight. -/
def applyScoringBlock (rec : JsonObj) (scoring : Except PyErr JsonObj) : JsonObj :=
  match scoring with
  | Except.ok s =>
      match objGetD s "summary" (JsonValue.str "") with
      | JsonValue.str t =>
          let rec2 := dictSet (dictSet rec "Section Scores" (objGetD s "sections" (JsonValue.arr [])))
            "Pitch Score" (objGetD s "total_score" JsonValue.null)
          if pyStrip t ≠ "" then dictSet rec2 "Summary Insight" (JsonValue.str (pyStrip t))
          else rec2
      | _ =>
          dictSet (dictSet (dictSet rec "Section Scores" (JsonValue.arr []))
            "Pitch Score" JsonValue.null)
            "Summary Insight" (JsonValue.str couldNotGenerateStructured)
  | Except.error _ =>
      dictSet (dictSet (dictSet rec "Section Scores" (JsonValue.arr []))
        "Pitch Score" JsonValue.null)
        "Summary Insight" (JsonValue.str couldNotGenerateStructured)

/-- One iteration of the tab1 per-document loop (streamlit_app.py lines
249-306): if extraction (text + entity call) raises, the outer except
reports the error and continues with the next file, appending no record;
otherwise the record gets its filename and the scoring block runs with
its own try/except. -/
def processDocument (extraction : Except PyErr JsonObj)
    (scoring : Except PyErr JsonObj) (filename : String) : Option JsonObj :=
  match extraction with
  | Except.error _ => none
  | Except.ok result =>
      some (applyScoringBlock (dictSet result "__filename" (JsonValue.str filename)) scoring)

/-- The whole tab1 upload loop over a batch of documents, each given by
its filename and the outcomes of its extraction and scoring calls. -/
def processBatch : List (String × Except PyErr JsonObj × Except PyErr JsonObj) → List JsonObj
  | [] => []
  | (fn, ex, sc) :: rest =>
      match processDocument ex sc fn with
      | some r => r :: processBatch rest
      | none => processBatch rest

/-- Python int() truncation toward zero on a rational. -/
def ratTrunc (q : ℚ) : ℤ :=
  if 0 ≤ q.num then Int.fdiv q.num (q.den : ℤ)
  else -(Int.fdiv (-q.num) (q.den : ℤ))

/-- team_idx = (int(raw_team) - 1) if raw_team else None (streamlit_app.py
lines 418-420): falsy values give None; numeric values (bools are ints)
convert and shift to 0-based.  int() on a truthy non-numeric value raises
in Python; such values are not page numbers and are modelled as none
(they never reach the preview list either way). -/
def toPageIndex (raw : JsonValue) : Option Int :=
  if truthy raw then
    match raw with
    | JsonValue.num q => some (ratTrunc q - 1)
    | JsonValue.bool _ => some 0
    | _ => none
  else none

/-- The key-slide list construction (streamlit_app.py lines 423-429,
analyze.py lines 321-328): for each of TeamPage, MarketPage,
TractionPage, append the 0-based index only when it is an int with
0 <= idx < page_count.  The rendered caption also carries the 1-based
page number; only the category label and index matter here. -/
def keySlideStep (pageCount : Nat) (e : String × JsonValue)
    (acc : List (String × Int)) : List (String × Int) :=
  match toPageIndex e.2 with
  | some i => if 0 ≤ i ∧ i < (pageCount : Int) then (e.1, i) :: acc else acc
  | none => acc

def keySlides (keyInfo : JsonObj) (pageCount : Nat) : List (String × Int) :=
  [("Team Slide", objGetD keyInfo "TeamPage" JsonValue.null),
   ("Market Slide", objGetD keyInfo "MarketPage" JsonValue.null),
   ("Traction Slide", objGetD keyInfo "TractionPage" JsonValue.null)].foldr
    (keySlideStep pageCount) []

/-- Whether a string has a first opening brace strictly before its last
closing brace (the salvage window of the response normalizers).  The
comparison is with ≤, which on actual strings is the same as strict less:
no index holds both an opening and a closing brace. -/
def hasBalancedBracePair (s : String) : Bool :=
  0 ≤ pyFind s lbrace && pyFind s lbrace ≤ pyRfind s rbrace

/-- Whether an Except value is the error case (a raised exception). -/
def isErr {e a : Type} : Except e a → Bool
  | Except.error _ => true
  | Except.ok _ => false

/-- The JSON object for one well-formed section score, as the data model
describes it: a name, a numeric score and a comment. -/
def secObj (p : String × ℚ × String) : JsonValue :=
  JsonValue.obj [("name", JsonValue.str p.1), ("score", JsonValue.num p.2.1),
                 ("comment", JsonValue.str p.2.2)]

/-- The weighted-sum formula of the specification: the sum over the
section scores of score times rubric weight times 10 (sections whose
name misses the rubric get weight 0 through sectionWeight). -/
def sumWeighted (secs : List (String × ℚ × String)) : ℚ :=
  (secs.map (fun p => p.2.1 * sectionWeight p.1 * 10)).sum

theorem qadd_eq (a b : ℚ) : qadd a b = a + b := by
  unfold qadd
  rw [Rat.mkRat_eq_div]
  rw [Rat.add_def]
  rw [Rat.normalize_eq_mkRat, Rat.mkRat_eq_div]

theorem qmul_eq (a b : ℚ) : qmul a b = a * b := by
  unfold qmul
  rw [Rat.mkRat_eq_div, Rat.mul_def, Rat.normalize_eq_mkRat, Rat.mkRat_eq_div]

theorem qneg_eq (a : ℚ) : qneg a = -a := by
  unfold qneg
  rw [Rat.mkRat_eq_div]
  push_cast
  rw [neg_div, Rat.num_div_den]

theorem mkRat_int_cast (n : ℤ) : mkRat n 1 = (n : ℚ) := by
  rw [Rat.mkRat_eq_div]
  norm_num

theorem find?_map_replace (k : String) (v : JsonValue) :
    ∀ kvs : JsonObj, kvs.any (fun p => p.1 == k) = true →
      List.find? (fun p => p.1 == k)
        (kvs.map (fun p => if p.1 == k then (k, v) else p)) = some (k, v) := by
  intro kvs
  induction kvs with
  | nil => intro h; simp at h
  | cons p ps ih =>
      intro h
      by_cases hp : p.1 = k
      · rw [List.map_cons, if_pos (show (p.1 == k) = true by simpa using hp)]
        rw [List.find?_cons_of_pos _ (by simp)]
      · rw [List.map_cons, if_neg (show ¬ (p.1 == k) = true by simpa using hp)]
        rw [List.find?_cons_of_neg _ (by simpa using hp)]
        apply ih
        simp only [List.any_cons, Bool.or_eq_true] at h
        rcases h with h1 | h2
        · exact absurd (by simpa using h1) hp
        · exact h2

theorem find?_append_new (k : String) (v : JsonValue) :
    ∀ kvs : JsonObj, kvs.any (fun p => p.1 == k) = false →
      List.find? (fun p => p.1 == k) (kvs ++ [(k, v)]) = some (k, v) := by
  intro kvs
  induction kvs with
  | nil =>
      intro h
      rw [List.nil_append, List.find?_cons_of_pos _ (by simp)]
  | cons p ps ih =>
      intro h
      simp only [List.any_cons, Bool.or_eq_false_iff] at h
      rw [List.cons_append, List.find?_cons_of_neg _ (by simp [h.1])]
      exact ih h.2

theorem objGet?_dictSet_self (kvs : JsonObj) (k : String) (v : JsonValue) :
    objGet? (dictSet kvs k v) k = some v := by
  unfold dictSet objGet?
  cases ha : kvs.any (fun p => p.1 == k) with
  | true =>
      rw [if_pos rfl, find?_map_replace k v kvs ha]
      rfl
  | false =>
      rw [if_neg (by simp), find?_append_new k v kvs ha]
      rfl

theorem find?_map_replace_ne (k : String) (v : JsonValue) (k' : String)
    (hne : k' ≠ k) :
    ∀ kvs : JsonObj,
      List.find? (fun p => p.1 == k')
        (kvs.map (fun p => if p.1 == k then (k, v) else p)) =
      List.find? (fun p => p.1 == k') kvs := by
  intro kvs
  induction kvs with
  | nil => rfl
  | cons p ps ih =>
      by_cases hp : p.1 = k
      · rw [List.map_cons, if_pos (show (p.1 == k) = true by simpa using hp)]
        rw [List.find?_cons_of_neg _ (by simp [Ne.symm hne])]
        rw [List.find?_cons_of_neg _ (by simp [hp, Ne.symm hne])]
        exact ih
      · rw [List.map_cons, if_neg (show ¬ (p.1 == k) = true by simpa using hp)]
        by_cases hq : p.1 = k'
        · rw [List.find?_cons_of_pos _ (by simpa using hq),
              List.find?_cons_of_pos _ (by simpa using hq)]
        · rw [List.find?_cons_of_neg _ (by simpa using hq),
              List.find?_cons_of_neg _ (by simpa using hq)]
          exact ih

theorem objGet?_dictSet_ne (kvs : JsonObj) (k : String) (v : JsonValue)
    (k' : String) (hne : k' ≠ k) :
    objGet? (dictSet kvs k v) k' = objGet? kvs k' := by
  unfold dictSet objGet?
  cases ha : kvs.any (fun p => p.1 == k) with
  | true => rw [if_pos rfl, find?_map_replace_ne k v k' hne kvs]
  | false =>
      rw [if_neg (by simp), List.find?_append]
      cases hf : List.find? (fun p => p.1 == k') kvs with
      | some p => simp [hf]
      | none => simp [hf, Ne.symm hne]

theorem pyRfindAux_ge (t : Char) :
    ∀ (cs : List Char) (i : Nat) (acc : Int), -1 ≤ acc → -1 ≤ pyRfindAux t cs i acc := by
  intro cs
  induction cs with
  | nil => intro i acc h; exact h
  | cons c cs ih =>
      intro i acc h
      unfold pyRfindAux
      apply ih
      by_cases hc : (c == t) = true
      · rw [if_pos hc]
        exact le_trans (by norm_num) (Int.ofNat_nonneg i)
      · rw [if_neg hc]; exact h

theorem pyRfind_ge (s : String) (t : Char) : -1 ≤ pyRfind s t :=
  pyRfindAux_ge t s.toList 0 (-1) le_rfl

theorem pyFind_cases (s : String) (t : Char) :
    pyFind s t = -1 ∨ 0 ≤ pyFind s t := by
  unfold pyFind
  generalize (0 : Nat) = i
  induction s.toList generalizing i with
  | nil => left; rfl
  | cons c cs ih =>
      unfold pyFindAux
      by_cases hc : (c == t) = true
      · rw [if_pos hc]; right; exact Int.ofNat_nonneg i
      · rw [if_neg hc]; exact ih (i + 1)

theorem pySliceNN_empty (s : String) (a b : Nat) (h : b ≤ a) :
    pySliceNN s a b = "" := by
  unfold pySliceNN
  rw [Nat.sub_eq_zero_of_le h, List.take_zero]

theorem stop_bne_true (content : String) :
    ((pyRfind content rbrace + 1 : Int) != -1) = true := by
  have h := pyRfind_ge content rbrace
  simp only [bne_iff_ne, ne_eq]
  omega

theorem sectionTerm_secObj (p : String × ℚ × String) :
    sectionTerm (secObj p) =
      Except.ok (qmul (qmul p.2.1 (sectionWeight p.1)) (mkRat 10 1)) := rfl

theorem mkRat_ten : (mkRat 10 1 : ℚ) = 10 := rfl

theorem applyWeightsSum_wf (secs : List (String × ℚ × String)) :
    applyWeightsSum (secs.map secObj) = Except.ok (sumWeighted secs) := by
  induction secs with
  | nil => rfl
  | cons p rest ih =>
      rw [List.map_cons]
      unfold applyWeightsSum
      rw [sectionTerm_secObj, ih]
      unfold sumWeighted
      rw [List.map_cons, List.sum_cons]
      simp only [qadd_eq, qmul_eq, mkRat_ten]

theorem applyWeights_wf (secs : List (String × ℚ × String)) :
    applyWeights (secs.map secObj) = Except.ok (pyRound (sumWeighted secs)) := by
  unfold applyWeights
  rw [applyWeightsSum_wf]

theorem sectionScoreOk_secObj (p : String × ℚ × String) :
    sectionScoreOk (secObj p) =
      if 0 ≤ p.2.1 ∧ p.2.1 ≤ 10 then Except.ok ()
      else Except.error (PyErr.rangeError "Invalid score") := rfl

theorem validateSections_wf_ok (secs : List (String × ℚ × String))
    (h : ∀ p ∈ secs, 0 ≤ p.2.1 ∧ p.2.1 ≤ 10) :
    validateSections (secs.map secObj) = Except.ok () := by
  induction secs with
  | nil => rfl
  | cons p rest ih =>
      rw [List.map_cons]
      unfold validateSections
      rw [sectionScoreOk_secObj, if_pos (h p (List.mem_cons_self p rest))]
      exact ih (fun q hq => h q (List.mem_cons_of_mem p hq))

theorem validateSections_wf_bad (secs : List (String × ℚ × String))
    (h : ∃ p ∈ secs, ¬ (0 ≤ p.2.1 ∧ p.2.1 ≤ 10)) :
    validateSections (secs.map secObj) =
      Except.error (PyErr.rangeError "Invalid score") := by
  induction secs with
  | nil => simp at h
  | cons p rest ih =>
      rw [List.map_cons]
      unfold validateSections
      rw [sectionScoreOk_secObj]
      by_cases hp : 0 ≤ p.2.1 ∧ p.2.1 ≤ 10
      · rw [if_pos hp]
        apply ih
        rcases h with ⟨q, hq, hbad⟩
        rcases List.mem_cons.mp hq with rfl | hq2
        · exact absurd hp hbad
        · exact ⟨q, hq2, hbad⟩
      · rw [if_neg hp]

theorem scorer_ok_shape (content : String) (s : JsonObj)
    (h : callStructuredPitchScorer content = Except.ok s) :
    ∃ v ws, s = [("sections", v), ("total_score", JsonValue.num (mkRat ws 1))] := by
  unfold callStructuredPitchScorer at h
  cases hn : normalizeResponse content with
  | error e => rw [hn] at h; simp at h
  | ok val =>
      simp only [hn] at h
      cases val with
      | obj kvs =>
          unfold validateAndScore at h
          cases hval : objGetD kvs "sections" (JsonValue.arr []) with
          | arr secs =>
              simp only [hval] at h
              cases hv : validateSections secs with
              | error e => simp only [hv] at h; simp at h
              | ok u =>
                  simp only [hv] at h
                  cases hw : applyWeights secs with
                  | error e => simp only [hw] at h; simp at h
                  | ok ws =>
                      simp only [hw] at h
                      by_cases hr : 0 ≤ ws ∧ ws ≤ 100
                      · rw [if_pos hr] at h
                        refine ⟨JsonValue.arr secs, ws, ?_⟩
                        exact (Except.ok.inj h).symm
                      · rw [if_neg hr] at h; simp at h
          | null => simp only [hval] at h; simp at h
          | bool b => simp only [hval] at h; simp at h
          | num q => simp only [hval] at h; simp at h
          | str t => simp only [hval] at h; simp at h
          | obj o => simp only [hval] at h; simp at h
      | null => simp at h
      | bool b => simp at h
      | num q => simp at h
      | str t => simp at h
      | arr xs => simp at h

theorem applyScoringBlock_ok_summary (rec : JsonObj) (content : String) (s : JsonObj)
    (hcall : callStructuredPitchScorer content = Except.ok s) :
    objGet? (applyScoringBlock rec (Except.ok s)) "Summary Insight" =
      objGet? rec "Summary Insight" := by
  rcases scorer_ok_shape content s hcall with ⟨v, ws, rfl⟩
  unfold applyScoringBlock
  have hsum : objGetD [("sections", v), ("total_score", JsonValue.num (mkRat ws 1))]
      "summary" (JsonValue.str "") = JsonValue.str "" := rfl
  simp only [hsum]
  rw [if_neg (by decide)]
  rw [objGet?_dictSet_ne _ _ _ _ (by decide), objGet?_dictSet_ne _ _ _ _ (by decide)]

theorem applyScoringBlock_err_summary (rec : JsonObj) (e : PyErr) :
    objGet? (applyScoringBlock rec (Except.error e)) "Summary Insight" =
      some (JsonValue.str couldNotGenerateStructured) := by
  unfold applyScoringBlock
  rw [objGet?_dictSet_self]

theorem processDocument_scoring_err (fn : String) (r : JsonObj) (e : PyErr) :
    ∃ rec, processDocument (Except.ok r) (Except.error e) fn = some rec ∧
      objGet? rec "Section Scores" = some (JsonValue.arr []) ∧
      objGet? rec "Pitch Score" = some JsonValue.null ∧
      objGet? rec "Summary Insight" = some (JsonValue.str couldNotGenerateStructured) := by
  refine ⟨applyScoringBlock (dictSet r "__filename" (JsonValue.str fn)) (Except.error e),
    rfl, ?_, ?_, ?_⟩
  · unfold applyScoringBlock
    rw [objGet?_dictSet_ne _ _ _ _ (by decide), objGet?_dictSet_ne _ _ _ _ (by decide),
        objGet?_dictSet_self]
  · unfold applyScoringBlock
    rw [objGet?_dictSet_ne _ _ _ _ (by decide), objGet?_dictSet_self]
  · unfold applyScoringBlock
    rw [objGet?_dictSet_self]

theorem mem_keySlides_foldr (pc : Nat) :
    ∀ (entries : List (String × JsonValue)) (lbl : String) (i : Int),
      (lbl, i) ∈ entries.foldr (keySlideStep pc) [] → 0 ≤ i ∧ i < (pc : Int) := by
  intro entries
  induction entries with
  | nil => intro lbl i h; simp at h
  | cons e es ih =>
      intro lbl i h
      rw [List.foldr_cons] at h
      unfold keySlideStep at h
      cases ht : toPageIndex e.2 with
      | none => simp only [ht] at h; exact ih lbl i h
      | some j =>
          simp only [ht] at h
          by_cases hb : 0 ≤ j ∧ j < (pc : Int)
          · rw [if_pos hb] at h
            rcases List.mem_cons.mp h with heq | hmem
            · obtain ⟨rfl, rfl⟩ := Prod.mk.inj heq
              exact hb
            · exact ih lbl i hmem
          · rw [if_neg hb] at h
            exact ih lbl i h

/-- Claim C1: apply_weights returns exactly round of the sum of score
times weight times 10 over the fixed fractional rubric (round is Python
round, half to even); a section whose name matches no rubric entry gets
weight 0 and contributes nothing; and the total_score returned by
call_structured_pitch_scorer is this recomputed weighted sum, regardless
of any total_score value present in the model JSON (the formula does not
mention the parsed total_score at all). -/
theorem claim_c1_scorer_recomputes_total :
    (∀ secs : List (String × ℚ × String),
        applyWeights (secs.map secObj) = Except.ok (pyRound (sumWeighted secs))) ∧
    (∀ n : String, n ∉ SCORING_RUBRIC.map (fun p => p.1) → sectionWeight n = 0) ∧
    (∀ (content : String) (kvs : JsonObj) (secs : List (String × ℚ × String)) (s : JsonObj),
        normalizeResponse content = Except.ok (JsonValue.obj kvs) →
        objGetD kvs "sections" (JsonValue.arr []) = JsonValue.arr (secs.map secObj) →
        callStructuredPitchScorer content = Except.ok s →
        objGet? s "total_score" =
          some (JsonValue.num (mkRat (pyRound (sumWeighted secs)) 1))) := by
  refine ⟨applyWeights_wf, ?_, ?_⟩
  · intro n hn
    unfold sectionWeight
    cases hf : SCORING_RUBRIC.find? (fun p => p.1 == n) with
    | none => rfl
    | some p =>
        exfalso
        have hmem := List.mem_of_find?_eq_some hf
        have hpn : p.1 = n := by
          have := List.find?_some hf
          simpa using this
        exact hn (hpn ▸ List.mem_map_of_mem (fun p => p.1) hmem)
  · intro content kvs secs s hn hsec hcall
    unfold callStructuredPitchScorer at hcall
    simp only [hn] at hcall
    unfold validateAndScore at hcall
    simp only [hsec] at hcall
    cases hv : validateSections (secs.map secObj) with
    | error e => simp only [hv] at hcall; simp at hcall
    | ok u =>
        simp only [hv, applyWeights_wf] at hcall
        by_cases hr : 0 ≤ pyRound (sumWeighted secs) ∧ pyRound (sumWeighted secs) ≤ 100
        · rw [if_pos hr] at hcall
          have hs := (Except.ok.inj hcall).symm
          subst hs
          rfl
        · rw [if_neg hr] at hcall; simp at hcall

/-- Witness for C1 at a concrete response: the model JSON carries
total_score 99, but the returned total_score is the recomputed
round(10 x 0.15 x 10) = 15. -/
theorem claim_c1_scorer_recomputes_total_witness :
    objGet? [("sections", JsonValue.arr [secObj ("Team", 10, "ok")]),
             ("total_score", JsonValue.num (mkRat 15 1))] "total_score" =
      some (JsonValue.num (mkRat (pyRound (sumWeighted [("Team", 10, "ok")])) 1)) ∧
    objGet? [("sections", JsonValue.arr [JsonValue.obj
               [("name", JsonValue.str "Team"), ("score", JsonValue.num 10),
                ("comment", JsonValue.str "ok")]]),
             ("total_score", JsonValue.num 99)] "total_score" =
      some (JsonValue.num 99) :=
  ⟨claim_c1_scorer_recomputes_total.2.2
      "\x7b\"sections\": [\x7b\"name\": \"Team\", \"score\": 10, \"comment\": \"ok\"\x7d], \"total_score\": 99\x7d"
      [("sections", JsonValue.arr [JsonValue.obj
          [("name", JsonValue.str "Team"), ("score", JsonValue.num 10),
           ("comment", JsonValue.str "ok")]]),
       ("total_score", JsonValue.num 99)]
      [("Team", 10, "ok")]
      [("sections", JsonValue.arr [secObj ("Team", 10, "ok")]),
       ("total_score", JsonValue.num (mkRat 15 1))]
      rfl rfl rfl,
   rfl⟩

/-- Claim C2 counterexample: the string "42" contains no brace at all, yet
the normalizer does not fail with any ParseError: the direct json.loads
succeeds and the bare number 42 is returned. -/
theorem claim_c2_counterexample :
    normalizeResponse "42" = Except.ok (JsonValue.num 42) ∧
    hasBalancedBracePair "42" = false := ⟨rfl, rfl⟩

/-- Claim C2 as amended: for a raw response whose stripped text fails
direct JSON parsing and has no balanced brace pair, the normalizer always
fails (never returns an object): with the ValueError carrying the
stripped text when no opening brace occurs at all, and otherwise with a
JSONDecodeError from parsing the empty extracted substring (the guard
end != -1 is vacuously true, so the informative ValueError is skipped). -/
theorem claim_c2_amended_no_pair_always_fails : ∀ raw : String,
    jsonParse (pyStrip raw) = none →
    hasBalancedBracePair (pyStrip raw) = false →
    (normalizeResponse raw = Except.error (PyErr.parseValueError (pyStrip raw)) ∨
     normalizeResponse raw = Except.error (PyErr.parseDecodeError "")) ∧
    (pyFind (pyStrip raw) lbrace = -1 →
      normalizeResponse raw = Except.error (PyErr.parseValueError (pyStrip raw))) := by
  intro raw hp hb
  unfold normalizeResponse normalizeStripped
  rw [hp]
  rcases pyFind_cases (pyStrip raw) lbrace with hf | hf
  · rw [hf]
    simp only [bne_self_eq_false, Bool.false_and, if_false]
    exact ⟨Or.inl rfl, fun _ => rfl⟩
  · have hcond : ((pyFind (pyStrip raw) lbrace != -1) &&
        ((pyRfind (pyStrip raw) rbrace + 1 : Int) != -1)) = true := by
      rw [stop_bne_true, Bool.and_true]
      simp only [bne_iff_ne, ne_eq]
      omega
    rw [if_pos hcond]
    have hlt : pyRfind (pyStrip raw) rbrace < pyFind (pyStrip raw) lbrace := by
      unfold hasBalancedBracePair at hb
      simp only [Bool.and_eq_false_iff, decide_eq_false_iff_not, not_le] at hb
      rcases hb with hb | hb
      · exact absurd hf (not_le.mpr hb)
      · exact hb
    have hwin : braceWindow (pyStrip raw) = "" := by
      unfold braceWindow
      apply pySliceNN_empty
      apply Int.toNat_le_toNat
      omega
    rw [hwin]
    constructor
    · right; rfl
    · intro h0; omega

/-- Witness for the amended C2 at the concrete input "abc": no brace at
all, so the ValueError carrying the raw text is raised. -/
theorem claim_c2_amended_no_pair_always_fails_witness :
    normalizeResponse "abc" = Except.error (PyErr.parseValueError "abc") :=
  (claim_c2_amended_no_pair_always_fails "abc" rfl rfl).2 rfl

/-- Claim C3: on the empty extraction result the merge step returns,
without raising, a record whose eight scalar fields are all null, whose
Founders default is the empty list, and whose market sub-object is
exactly TAM = SAM = SOM = null. -/
theorem claim_c3_merge_total_on_empty : mergeNormalize [] = Except.ok
    { startupName := JsonValue.null, foundingYear := JsonValue.null,
      founders := JsonValue.arr [], industry := JsonValue.null,
      niche := JsonValue.null, usp := JsonValue.null,
      fundingStage := JsonValue.null, currentRevenue := JsonValue.null,
      amountRaised := JsonValue.null, marketTAM := JsonValue.null,
      marketSAM := JsonValue.null, marketSOM := JsonValue.null,
      rawJson := [] } := rfl

/-- Claim C4 counterexample: with the compact key present but bound to
the falsy value "" and the spaced key bound to "Acme", the or-chain
resolves to "Acme", not to the present compact key's value "". -/
theorem claim_c4_counterexample :
    resolveField [("StartupName", JsonValue.str ""), ("Startup Name", JsonValue.str "Acme")]
      "StartupName" "Startup Name" = JsonValue.str "Acme" ∧
    objGet? [("StartupName", JsonValue.str ""), ("Startup Name", JsonValue.str "Acme")]
      "StartupName" = some (JsonValue.str "") ∧
    JsonValue.str "Acme" ≠ JsonValue.str "" :=
  ⟨rfl, rfl, fun h => absurd (JsonValue.str.inj h) (by decide)⟩

/-- Claim C4 as amended: resolution is by truthiness, not key presence:
each two-spelling field resolves to the compact key's value when that
value is truthy, else to the spaced key's value when truthy, else to
null (falsy present values are passed over); the resolution is total and
never throws for a missing key, and this is exactly how the merge step
fills all five two-spelling fields. -/
theorem claim_c4_amended_truthiness_resolution : ∀ result : JsonObj,
    (∀ compact spaced : String,
        resolveField result compact spaced = resolveFieldSpec result compact spaced) ∧
    (mergeNormalize result = Except.error PyErr.attributeError ∨
     ∃ rec, mergeNormalize result = Except.ok rec ∧
       rec.startupName = resolveFieldSpec result "StartupName" "Startup Name" ∧
       rec.foundingYear = resolveFieldSpec result "FoundingYear" "Founding Year" ∧
       rec.fundingStage = resolveFieldSpec result "FundingStage" "Funding Stage" ∧
       rec.currentRevenue = resolveFieldSpec result "CurrentRevenue" "Current Revenue" ∧
       rec.amountRaised = resolveFieldSpec result "AmountRaised" "Amount Raised") := by
  intro result
  constructor
  · intro compact spaced
    rfl
  · unfold mergeNormalize
    cases hm : pyOr (objGetD result "Market" JsonValue.null) (JsonValue.obj []) with
    | obj mk => right; exact ⟨_, rfl, rfl, rfl, rfl, rfl, rfl⟩
    | null => left; rfl
    | bool b => left; rfl
    | num q => left; rfl
    | str t => left; rfl
    | arr xs => left; rfl

/-- Claim C5: when the parsed response carries a well-formed section list
in which some score lies outside 0..10, or the recomputed rounded total
lies outside 0..100 (possible through duplicated section names), the
scorer fails with the range ValueError and never returns a clamped
value. -/
theorem claim_c5_out_of_range_raises :
    ∀ (content : String) (kvs : JsonObj) (secs : List (String × ℚ × String)),
      normalizeResponse content = Except.ok (JsonValue.obj kvs) →
      objGetD kvs "sections" (JsonValue.arr []) = JsonValue.arr (secs.map secObj) →
      ((∃ p ∈ secs, ¬ (0 ≤ p.2.1 ∧ p.2.1 ≤ 10)) ∨
       ¬ (0 ≤ pyRound (sumWeighted secs) ∧ pyRound (sumWeighted secs) ≤ 100)) →
      ∃ msg, callStructuredPitchScorer content = Except.error (PyErr.rangeError msg) := by
  intro content kvs secs hn hsec hbad
  unfold callStructuredPitchScorer
  simp only [hn]
  unfold validateAndScore
  simp only [hsec]
  by_cases hex : ∃ p ∈ secs, ¬ (0 ≤ p.2.1 ∧ p.2.1 ≤ 10)
  · refine ⟨"Invalid score", ?_⟩
    simp only [validateSections_wf_bad secs hex]
  · have hall : ∀ p ∈ secs, 0 ≤ p.2.1 ∧ p.2.1 ≤ 10 := by
      intro p hp
      by_contra hc
      exact hex ⟨p, hp, hc⟩
    have hout : ¬ (0 ≤ pyRound (sumWeighted secs) ∧ pyRound (sumWeighted secs) ≤ 100) := by
      rcases hbad with hb | hb
      · exact absurd hb hex
      · exact hb
    refine ⟨"Invalid total_score", ?_⟩
    simp only [validateSections_wf_ok secs hall, applyWeights_wf]
    rw [if_neg hout]

/-- Witness for C5 at the spec's example: a section score of 11 makes the
scorer raise the range ValueError instead of clamping to 10. -/
theorem claim_c5_out_of_range_raises_witness :
    ∃ msg, callStructuredPitchScorer
      "\x7b\"sections\": [\x7b\"name\": \"Team\", \"score\": 11, \"comment\": \"\"\x7d]\x7d" =
        Except.error (PyErr.rangeError msg) :=
  claim_c5_out_of_range_raises
    "\x7b\"sections\": [\x7b\"name\": \"Team\", \"score\": 11, \"comment\": \"\"\x7d]\x7d"
    [("sections", JsonValue.arr [JsonValue.obj
        [("name", JsonValue.str "Team"), ("score", JsonValue.num 11),
         ("comment", JsonValue.str "")]])]
    [("Team", 11, "")]
    rfl rfl
    (Or.inl ⟨("Team", 11, ""), List.mem_singleton.mpr rfl, by decide⟩)

/-- Claim C6 counterexample: a successful scoring call (whose result dict
never carries a summary key) and a successful insight call with the
non-empty summary "Strong team." leave the record with no Summary
Insight at all: the merged record's summary is neither the scoring
summary, nor the insight summary, nor any fixed placeholder, so the
claimed precedence chain does not exist. -/
theorem claim_c6_counterexample :
    applyScoringBlock []
      (callStructuredPitchScorer "\x7b\"sections\": [], \"total_score\": 88\x7d") =
      [("Section Scores", JsonValue.arr []), ("Pitch Score", JsonValue.num 0)] ∧
    normalizeResponse "\x7b\"Summary Insight\": \"Strong team.\"\x7d" =
      Except.ok (JsonValue.obj [("Summary Insight", JsonValue.str "Strong team.")]) ∧
    objGet? [("Section Scores", JsonValue.arr []), ("Pitch Score", JsonValue.num 0)]
      "Summary Insight" = none := ⟨rfl, rfl, rfl⟩

/-- Claim C6 as amended: the record's Summary Insight is left unchanged
whenever the scoring call succeeds (the scorer returns only sections and
total_score, so the non-empty-summary override can never fire), and it is
set to the fixed string "Could not generate structured insight." when the
scoring call fails; the qualitative-insight summary is shown separately
in tab 3 and is never merged into the record. -/
theorem claim_c6_amended_summary_sources :
    (∀ (rec : JsonObj) (content : String) (s : JsonObj),
        callStructuredPitchScorer content = Except.ok s →
        objGet? (applyScoringBlock rec (Except.ok s)) "Summary Insight" =
          objGet? rec "Summary Insight") ∧
    (∀ (rec : JsonObj) (e : PyErr),
        objGet? (applyScoringBlock rec (Except.error e)) "Summary Insight" =
          some (JsonValue.str couldNotGenerateStructured)) :=
  ⟨applyScoringBlock_ok_summary, applyScoringBlock_err_summary⟩

/-- Witness for the amended C6: a concrete record with a prior summary
keeps it unchanged through a successful scoring block. -/
theorem claim_c6_amended_summary_sources_witness :
    objGet? (applyScoringBlock [("Summary Insight", JsonValue.str "base")]
      (Except.ok [("sections", JsonValue.arr []),
                  ("total_score", JsonValue.num (mkRat 0 1))]))
      "Summary Insight" =
    objGet? [("Summary Insight", JsonValue.str "base")] "Summary Insight" :=
  claim_c6_amended_summary_sources.1 [("Summary Insight", JsonValue.str "base")]
    "\x7b\"sections\": []\x7d"
    [("sections", JsonValue.arr []), ("total_score", JsonValue.num (mkRat 0 1))]
    rfl

/-- Claim C7 counterexample: in a two-document batch where the first
document's extraction call fails and the second document's scoring call
fails, the first document is aborted entirely (no record with defaulted
entity fields appears), while the second document survives with only its
scoring sub-result defaulted; the batch output holds exactly one
record. -/
theorem claim_c7_counterexample :
    processBatch
      [("a.pdf", Except.error PyErr.typeError, Except.ok []),
       ("b.pdf", Except.ok [("Industry", JsonValue.str "AI")], Except.error PyErr.typeError)] =
      [[("Industry", JsonValue.str "AI"), ("__filename", JsonValue.str "b.pdf"),
        ("Section Scores", JsonValue.arr []), ("Pitch Score", JsonValue.null),
        ("Summary Insight", JsonValue.str couldNotGenerateStructured)]] := rfl

/-- Claim C7 as amended: a scoring-template failure is contained (the
record survives with Section Scores = [], Pitch Score = null and the
placeholder summary) and a failed document never aborts the rest of the
batch; but an extraction-template failure aborts that whole document,
which is skipped with an error notice instead of continuing with
defaulted entity fields. -/
theorem claim_c7_amended_failure_containment :
    (∀ (fn : String) (e : PyErr) (sc : Except PyErr JsonObj)
        (rest : List (String × Except PyErr JsonObj × Except PyErr JsonObj)),
        processBatch ((fn, Except.error e, sc) :: rest) = processBatch rest) ∧
    (∀ (fn : String) (r : JsonObj) (e : PyErr),
        ∃ rec, processDocument (Except.ok r) (Except.error e) fn = some rec ∧
          objGet? rec "Section Scores" = some (JsonValue.arr []) ∧
          objGet? rec "Pitch Score" = some JsonValue.null ∧
          objGet? rec "Summary Insight" =
            some (JsonValue.str couldNotGenerateStructured)) ∧
    (∀ (fn : String) (r : JsonObj) (sc : Except PyErr JsonObj)
        (rest : List (String × Except PyErr JsonObj × Except PyErr JsonObj)),
        processBatch ((fn, Except.ok r, sc) :: rest) =
          applyScoringBlock (dictSet r "__filename" (JsonValue.str fn)) sc ::
            processBatch rest) :=
  ⟨fun _ _ _ _ => rfl, processDocument_scoring_err, fun _ _ _ _ => rfl⟩

/-- Claim C8: evaluation of the normalizer at the failing input "xx(yy"
written with an opening brace: the first opening brace is at index 2 and
no closing brace exists (rfind gives -1), yet the salvage branch is
taken, because end = rfind + 1 = 0 passes the vacuous end != -1 guard,
and json.loads of the empty slice content from 2 to 0 raises a
JSONDecodeError whose document is "", not the ValueError carrying the
raw text that the spec prescribes when no brace pair exists. -/
theorem claim_c8_vacuous_guard_evaluation :
    normalizeResponse "xx\x7byy" = Except.error (PyErr.parseDecodeError "") ∧
    pyFind "xx\x7byy" lbrace = 2 ∧
    pyRfind "xx\x7byy" rbrace = -1 := ⟨rfl, rfl, rfl⟩

/-- Claim C9: identify_key_slide_pages is total over model responses: on
exactly the condition where the scoring and insight normalizers raise
(direct parse failed and the brace salvage failed too), it instead
returns the all-null page dict. -/
theorem claim_c9_key_slide_total : ∀ raw : String,
    isErr (normalizeResponse raw) = true →
    keySlideNormalize raw = nullKeyPages := by
  intro raw h
  unfold normalizeResponse normalizeStripped at h
  unfold keySlideNormalize keySlideStripped
  cases hj : jsonParse (pyStrip raw) with
  | some v => rw [hj] at h; simp [isErr] at h
  | none =>
      simp only [hj] at h ⊢
      cases hc : ((pyFind (pyStrip raw) lbrace != -1) &&
          ((pyRfind (pyStrip raw) rbrace + 1 : Int) != -1)) with
      | false =>
          rw [if_neg (by simp)]
      | true =>
          rw [if_pos hc] at h
          rw [if_pos rfl]
          cases hw : jsonParse (braceWindow (pyStrip raw)) with
          | some v => simp only [hw] at h; simp [isErr] at h
          | none => simp only [hw]

/-- Witness for C9: on the unparseable response "no json here" the
scoring/insight normalizer raises while the key-slide identifier returns
the all-null dict. -/
theorem claim_c9_key_slide_total_witness :
    isErr (normalizeResponse "no json here") = true ∧
    keySlideNormalize "no json here" = nullKeyPages :=
  ⟨rfl, claim_c9_key_slide_total "no json here" rfl⟩

/-- Claim C10: every page index in the key-slide preview list lies in
0 <= idx < page_count (so indexing the document never goes out of
bounds), and all-null model answers contribute no preview entry at
all. -/
theorem claim_c10_preview_in_bounds :
    (∀ (keyInfo : JsonObj) (pageCount : Nat) (lbl : String) (i : Int),
        (lbl, i) ∈ keySlides keyInfo pageCount → 0 ≤ i ∧ i < (pageCount : Int)) ∧
    (∀ pageCount : Nat,
        keySlides [("TeamPage", JsonValue.null), ("MarketPage", JsonValue.null),
                   ("TractionPage", JsonValue.null)] pageCount = []) := by
  constructor
  · intro keyInfo pc lbl i h
    exact mem_keySlides_foldr pc _ lbl i h
  · intro pc
    rfl

/-- Witness for C10: TeamPage 2 over a 3-page document previews 0-based
index 1, which the theorem confirms is within bounds. -/
theorem claim_c10_preview_in_bounds_witness :
    ("Team Slide", (1 : Int)) ∈ keySlides [("TeamPage", JsonValue.num 2)] 3 ∧
    (0 ≤ (1 : Int) ∧ (1 : Int) < ((3 : Nat) : Int)) :=
  ⟨by decide,
   claim_c10_preview_in_bounds.1 [("TeamPage", JsonValue.num 2)] 3 "Team Slide" 1 (by decide)⟩
